import Mathlib

/-!
# Verification of the AutoSentry agent-orchestration core

Shallow embedding of the agent adapter layer
(`src/agents/adapters/*.py`) and the master orchestrator
(`src/agents/master_agent.py`), together with theorems settling
specification claims about task/result handling, workflow staging and
fallback behaviour.

Modelling conventions:
* Python dictionaries are insertion-ordered association lists
  (`Dict := List (String × Val)`); `d.get`, `d[k] = v` are embedded as
  `dictGetD` / `dictSet` with Python's overwrite-in-place semantics.
* Python numbers (int / float) are exact fractions `PyNum`
  (numerator / denominator), so every comparison in the source is an
  exact rational comparison and fully computable in the kernel.
* Python exceptions are an explicit error channel `Except PyErr _`;
  the `try/except` of `BuiltinAgent.execute` and
  `MasterAgent.process_telemetry` become `match` on that channel.
* External effects (HTTP responses of the ML and UEBA services) are
  parameters of the embedded functions — the Python wrappers
  `_get_ml_prediction` / `_report_to_ueba` catch all transport errors
  themselves and always return a dict, so a `Dict` parameter captures
  exactly their observable behaviour.  `uuid`-generated identifiers
  and timestamps are fixed placeholder strings; no claim observes
  their values.
-/

namespace AutoSentry

/-- An exact Python number: the fraction `num / den` (`den` intended
positive; every constant in the source is written with an explicit
positive denominator). -/
structure PyNum where
  num : Int
  den : Nat
deriving DecidableEq, Repr

/-- `a < b` on Python numbers, by cross multiplication. -/
def PyNum.blt (a b : PyNum) : Bool :=
  a.num * (b.den : Int) < b.num * (a.den : Int)

/-- A Python value as it occurs in task inputs / outputs: strings,
numbers, booleans, `None`, lists and (insertion-ordered) dicts. -/
inductive Val where
  | s : String → Val
  | n : PyNum → Val
  | b : Bool → Val
  | none : Val
  | list : List Val → Val
  | dict : List (String × Val) → Val
deriving Repr

/-- An insertion-ordered Python dictionary with string keys. -/
abbrev Dict := List (String × Val)

/-- Integer literal as a `Val`. -/
def vInt (n : Int) : Val := Val.n ⟨n, 1⟩

/-- `d.get(k, default)` on a Python dict. -/
def dictGetD (d : Dict) (k : String) (default : Val) : Val :=
  match d.find? (fun p => p.1 == k) with
  | Option.some p => p.2
  | Option.none => default

/-- `d.get(k)` on a Python dict (absent key ⇒ Python `None`,
modelled as `Option.none`). -/
def dictGet? (d : Dict) (k : String) : Option Val :=
  (d.find? (fun p => p.1 == k)).map Prod.snd

/-- `d[k] = v` on a Python dict: overwrite in place if the key exists
(keeping its position), else append at the end. -/
def dictSet (d : Dict) (k : String) (v : Val) : Dict :=
  if d.any (fun p => p.1 == k) then
    d.map (fun p => if p.1 == k then (k, v) else p)
  else
    d ++ [(k, v)]

/-- Python exceptions raised by the embedded code. -/
inductive PyErr where
  | typeError : PyErr
  | attributeError : PyErr
  | indexError : PyErr
deriving DecidableEq, Repr

/-- `str(e)` — the message of a raised exception.  Representative
texts; all non-empty, as in CPython. -/
def PyErr.msg : PyErr → String
  | .typeError => "TypeError: comparison not supported between instances"
  | .attributeError => "AttributeError: object has no attribute"
  | .indexError => "IndexError: list index out of range"

theorem PyErr.msg_ne_empty (e : PyErr) : e.msg ≠ "" := by
  cases e <;> decide

/-- `v < c` where `v` is an arbitrary Python value and `c` a number:
numbers and booleans compare; anything else raises `TypeError`. -/
def valLt (v : Val) (c : PyNum) : Except PyErr Bool :=
  match v with
  | Val.n q => Except.ok (q.blt c)
  | Val.b bb => Except.ok (PyNum.blt ⟨if bb then 1 else 0, 1⟩ c)
  | _ => Except.error PyErr.typeError

/-- `v > c` where `v` is an arbitrary Python value and `c` a number. -/
def valGt (v : Val) (c : PyNum) : Except PyErr Bool :=
  match v with
  | Val.n q => Except.ok (c.blt q)
  | Val.b bb => Except.ok (c.blt ⟨if bb then 1 else 0, 1⟩)
  | _ => Except.error PyErr.typeError

/-- Python `v == "t"` for a possibly-absent value: only a string with
the same text compares equal; never raises. -/
def valEqStr (v : Option Val) (t : String) : Bool :=
  match v with
  | Option.some (Val.s u) => u == t
  | _ => false

/-- `.get(...)` on a value that must be a dict; anything else raises
`AttributeError` (as `telemetry.get` would on a non-dict). -/
def asDict (v : Val) : Except PyErr Dict :=
  match v with
  | Val.dict d => Except.ok d
  | _ => Except.error PyErr.attributeError

/-- A value used where a string method (`.lower()`, `.title()`) is
called: anything else raises `AttributeError`. -/
def asStr (v : Val) : Except PyErr String :=
  match v with
  | Val.s t => Except.ok t
  | _ => Except.error PyErr.attributeError

/-- Python truthiness of a value. -/
def pyTruthy : Val → Bool
  | Val.s t => t ≠ ""
  | Val.n q => q.num ≠ 0
  | Val.b bb => bb
  | Val.none => false
  | Val.list l => !l.isEmpty
  | Val.dict d => !d.isEmpty

/-- `v[0]` on a Python value: head of a non-empty list (an empty list
raises `IndexError`); indexing anything non-sequential raises
`TypeError`. -/
def pyIndex0 (v : Val) : Except PyErr Val :=
  match v with
  | Val.list [] => Except.error PyErr.indexError
  | Val.list (x :: _) => Except.ok x
  | Val.s t => if t.isEmpty then Except.error PyErr.indexError
               else Except.ok (Val.s (String.mk [t.get 0]))
  | _ => Except.error PyErr.typeError

mutual

/-- `repr` of a Python value, as used by `str(...)` on containers. -/
def pyRepr : Val → String
  | Val.s t => "'" ++ t ++ "'"
  | Val.n q => toString q.num ++ "/" ++ toString q.den
  | Val.b bb => if bb then "True" else "False"
  | Val.none => "None"
  | Val.list l => "[" ++ String.intercalate ", " (pyReprList l) ++ "]"
  | Val.dict d => "\x7b" ++ String.intercalate ", " (pyReprDict d) ++ "\x7d"

/-- `repr` of each element of a Python list. -/
def pyReprList : List Val → List String
  | [] => []
  | v :: vs => pyRepr v :: pyReprList vs

/-- `repr` of each entry of a Python dict. -/
def pyReprDict : List (String × Val) → List String
  | [] => []
  | (k, v) :: ps => ("'" ++ k ++ "': " ++ pyRepr v) :: pyReprDict ps

end

/-- `str(...)` of a Python value. -/
def pyStr : Val → String
  | Val.s t => t
  | v => pyRepr v

/-- Substring test, as Python's `needle in haystack` on strings. -/
def strContains (haystack needle : String) : Bool :=
  (haystack.splitOn needle).length ≠ 1

/-- Python's `str.title()` (capitalises each space-separated word). -/
def pyTitle (t : String) : String :=
  String.intercalate " " ((t.splitOn " ").map String.capitalize)

/-! ## Task / result data model (`src/agents/adapters/base_adapter.py`) -/

/-- `AgentType` — the kinds of agents in the system. -/
inductive AgentType where
  | master
  | data_analysis
  | diagnosis
  | customer_engagement
  | scheduling
  | feedback
  | rca_capa
deriving DecidableEq, Repr

/-- `AgentTask` — a unit of work handed to an agent. -/
structure AgentTask where
  task_id : String
  task_type : String
  description : String
  input_data : Dict
  priority : Int := 1
  timeout_seconds : Int := 30
  retry_count : Int := 0
  max_retries : Int := 3
deriving Repr

instance : Inhabited AgentTask :=
  ⟨{ task_id := "", task_type := "", description := "", input_data := [] }⟩

/-- `AgentResult` — the outcome of one task execution. -/
structure AgentResult where
  task_id : String
  agent_id : String
  success : Bool
  output : Dict
  error : Option String := Option.none
  execution_time_ms : PyNum := ⟨0, 1⟩
  metadata : Option Dict := Option.none
deriving Repr

/-! ## Built-in agent task handlers
(`src/agents/adapters/builtin_adapter.py`, `BuiltinAgent._*`)

Each handler returns `Except PyErr Dict`: the `.ok` branch is the
dict the Python method returns, the `.error` branch a raised
exception (caught by `BuiltinAgent.execute`).  `uuid`-derived
identifiers and `datetime.now()` timestamps are fixed placeholder
strings. -/

/-- The `health_indicators` dict built by `_analyze` from the four
goodness flags. -/
def analyzeHealth (engineGood oilGood batteryGood brakesGood : Bool) : Dict :=
  let indicator := fun (good : Bool) => Val.s (if good then "good" else "warning")
  [("engine", indicator engineGood), ("oil", indicator oilGood),
   ("battery", indicator batteryGood), ("brakes", indicator brakesGood)]

/-- The dict returned by `_analyze` for the given vehicle id and
goodness flags. -/
def pyAnalyzeOutput (vid : Val) (engineGood oilGood batteryGood brakesGood : Bool) :
    Dict :=
  let health := analyzeHealth engineGood oilGood batteryGood brakesGood
  let warnings := (health.filter (fun p => valEqStr (Option.some p.2) "warning")).map Prod.fst
  [("vehicle_id", vid),
   ("health_indicators", Val.dict health),
   ("overall_status", Val.s (if warnings.isEmpty then "healthy" else "needs_attention")),
   ("recommendations", Val.list
     (if warnings.isEmpty then []
      else warnings.map (fun w => Val.s ("Check " ++ w ++ " system"))))]

/-- `BuiltinAgent._analyze`.  The four comparisons are evaluated in
source order and the first `TypeError` raised (non-numeric telemetry
value) aborts the dict construction. -/
def pyAnalyze (data : Dict) : Except PyErr Dict :=
  match asDict (dictGetD data "telemetry" (Val.dict [])) with
  | Except.error e => Except.error e
  | Except.ok telemetry =>
    match valLt (dictGetD telemetry "engine_temp" (vInt 90)) ⟨100, 1⟩ with
    | Except.error e => Except.error e
    | Except.ok engineGood =>
      match valGt (dictGetD telemetry "oil_pressure" (vInt 40)) ⟨30, 1⟩ with
      | Except.error e => Except.error e
      | Except.ok oilGood =>
        match valGt (dictGetD telemetry "battery_voltage" (vInt 12)) ⟨115, 10⟩ with
        | Except.error e => Except.error e
        | Except.ok batteryGood =>
          match valGt (dictGetD telemetry "brake_pad_wear_avg" (Val.n ⟨5, 10⟩)) ⟨2, 10⟩ with
          | Except.error e => Except.error e
          | Except.ok brakesGood =>
              Except.ok (pyAnalyzeOutput
                (dictGetD telemetry "vehicle_id" (Val.s "unknown"))
                engineGood oilGood batteryGood brakesGood)

/-- The severity assigned by `BuiltinAgent._diagnose`: each warning
branch overwrites `diagnosis["severity"]` in source order
engine → oil → battery → brakes, so the value is that of the **last**
warning branch taken (brakes "high", else battery "medium", else
oil/engine "high", else "low"). -/
def diagnoseSeverity (engineW oilW batteryW brakesW : Bool) : String :=
  if brakesW then "high"
  else if batteryW then "medium"
  else if oilW then "high"
  else if engineW then "high"
  else "low"

/-- The findings accumulated by `_diagnose`'s warning branches. -/
def diagnoseFindings (engineW oilW batteryW brakesW : Bool) : List Val :=
  (if engineW then [Val.s "Engine temperature elevated"] else []) ++
  (if oilW then [Val.s "Oil pressure below threshold"] else []) ++
  (if batteryW then [Val.s "Battery voltage low"] else []) ++
  (if brakesW then [Val.s "Brake pads worn"] else [])

/-- The findings after `_diagnose`'s final empty-list fixup. -/
def diagnoseFindingsFinal (engineW oilW batteryW brakesW : Bool) : List Val :=
  if (diagnoseFindings engineW oilW batteryW brakesW).isEmpty then
    [Val.s "No issues detected"]
  else diagnoseFindings engineW oilW batteryW brakesW

/-- The dict returned by `_diagnose` for the given vehicle id and
warning flags. -/
def pyDiagnoseOutput (vid : Val) (engineW oilW batteryW brakesW : Bool) : Dict :=
  [("vehicle_id", vid),
   ("diagnosis_code", Val.s "DX-XXXXXXXX"),
   ("findings", Val.list (diagnoseFindingsFinal engineW oilW batteryW brakesW)),
   ("root_causes", Val.list
     ((if engineW then [Val.s "Possible cooling system issue"] else []) ++
      (if oilW then [Val.s "Oil leak or pump degradation"] else []) ++
      (if batteryW then [Val.s "Battery aging or charging system issue"] else []) ++
      (if brakesW then [Val.s "Normal wear"] else []))),
   ("severity", Val.s (diagnoseSeverity engineW oilW batteryW brakesW)),
   ("recommended_actions", Val.list
     ((if engineW then [Val.s "Inspect coolant levels and thermostat"] else []) ++
      (if oilW then [Val.s "Check oil level and inspect for leaks"] else []) ++
      (if batteryW then [Val.s "Test battery and alternator"] else []) ++
      (if brakesW then [Val.s "Replace brake pads"] else [])))]

/-- `BuiltinAgent._diagnose`. -/
def pyDiagnose (data : Dict) : Except PyErr Dict :=
  match asDict (dictGetD data "analysis" (Val.dict [])) with
  | Except.error e => Except.error e
  | Except.ok analysis =>
    match asDict (dictGetD analysis "health_indicators" (Val.dict [])) with
    | Except.error e => Except.error e
    | Except.ok health =>
        Except.ok (pyDiagnoseOutput
          (dictGetD analysis "vehicle_id" (Val.s "unknown"))
          (valEqStr (dictGet? health "engine") "warning")
          (valEqStr (dictGet? health "oil") "warning")
          (valEqStr (dictGet? health "battery") "warning")
          (valEqStr (dictGet? health "brakes") "warning"))

/-- `BuiltinAgent._predict`. -/
def pyPredict (_data : Dict) : Except PyErr Dict :=
  Except.ok
    [("prediction_id", Val.s "PRED-XXXXXXXX"),
     ("status", Val.s "generated"),
     ("note", Val.s "Prediction would be fetched from ML service")]

/-- `BuiltinAgent._schedule`. -/
def pySchedule (data : Dict) : Except PyErr Dict :=
  match asDict (dictGetD data "diagnosis" (Val.dict [])) with
  | Except.error e => Except.error e
  | Except.ok diagnosis =>
    match asDict (dictGetD data "customer" (Val.dict [])) with
    | Except.error e => Except.error e
    | Except.ok customer =>
      let actionsStr := pyStr (dictGetD diagnosis "recommended_actions" (Val.list []))
      let findingsStr := pyStr (dictGetD diagnosis "findings" (Val.list []))
      let service_type :=
        if strContains actionsStr.toLower "brakes" then "Brake Service"
        else if strContains findingsStr.toLower "engine" then "Engine Diagnostics"
        else if strContains findingsStr.toLower "battery" then "Electrical Service"
        else "Diagnostic Service"
      Except.ok
        [("appointment_id", Val.s "APT-XXXXXXXX"),
         ("vehicle_id", dictGetD diagnosis "vehicle_id" (Val.s "unknown")),
         ("customer_name", dictGetD customer "name" (Val.s "Unknown")),
         ("service_type", Val.s service_type),
         ("priority", dictGetD diagnosis "severity" (Val.s "low")),
         ("status", Val.s "pending"),
         ("estimated_duration_hours", vInt 2)]

/-- `BuiltinAgent._engage`. -/
def pyEngage (data : Dict) : Except PyErr Dict :=
  match asDict (dictGetD data "appointment" (Val.dict [])) with
  | Except.error e => Except.error e
  | Except.ok appointment =>
    match asDict (dictGetD data "customer" (Val.dict [])) with
    | Except.error e => Except.error e
    | Except.ok customer =>
        let service_type := dictGetD appointment "service_type" (Val.s "Service")
        let priority := dictGetD appointment "priority" (Val.s "low")
        let urgency :=
          if valEqStr (Option.some priority) "high" then
            "We recommend scheduling as soon as possible."
          else "Please schedule at your earliest convenience."
        match asStr priority with
        | Except.error e => Except.error e
        | Except.ok priorityStr =>
          match asStr service_type with
          | Except.error e => Except.error e
          | Except.ok serviceStr =>
              let chat_message :=
                "Hello " ++ pyStr (dictGetD customer "name" (Val.s "Valued Customer")) ++
                ",\n\nOur predictive maintenance system has detected that your vehicle may need attention.\n\n" ++
                "Service Recommended: " ++ pyStr service_type ++
                "\nPriority: " ++ pyTitle priorityStr ++
                "\n\n" ++ urgency ++
                "\n\nWould you like to schedule a service appointment? \n" ++
                "Reply 'BOOK' to schedule or call us at 1-800-AUTOSENTRY.\n\n" ++
                "Best regards,\nAutoSentry AI Team"
              let voice_script :=
                "Hello, this is AutoSentry AI calling about your vehicle.\n" ++
                "Our system has detected that your vehicle may need " ++ serviceStr.toLower ++
                ".\nThis is marked as " ++ priorityStr ++ " priority.\n" ++ urgency ++
                "\nTo schedule an appointment, press 1.\n" ++
                "To speak with a representative, press 2.\n" ++
                "To hear this message again, press 3."
              Except.ok
                [("engagement_id", Val.s "ENG-XXXXXXXX"),
                 ("customer_id", dictGetD customer "id" (Val.s "unknown")),
                 ("channel", Val.s "multi"),
                 ("chat_message", Val.s chat_message),
                 ("voice_script", Val.s voice_script),
                 ("sms_message", Val.s ("AutoSentry Alert: Your vehicle needs " ++ pyStr service_type ++
                   ". Call 1-800-AUTOSENTRY to schedule.")),
                 ("status", Val.s "prepared")]

/-- `BuiltinAgent._feedback`. -/
def pyFeedback (_data : Dict) : Except PyErr Dict :=
  Except.ok
    [("feedback_id", Val.s "FB-XXXXXXXX"),
     ("survey_link", Val.s "https://autosentry.ai/feedback/xxxxxxxx"),
     ("questions", Val.list
       [Val.dict [("id", vInt 1), ("text", Val.s "How satisfied were you with the service?"), ("type", Val.s "rating")],
        Val.dict [("id", vInt 2), ("text", Val.s "Was the issue resolved?"), ("type", Val.s "yes_no")],
        Val.dict [("id", vInt 3), ("text", Val.s "How likely are you to recommend us?"), ("type", Val.s "nps")],
        Val.dict [("id", vInt 4), ("text", Val.s "Any additional comments?"), ("type", Val.s "text")]]),
     ("status", Val.s "sent")]

/-- `BuiltinAgent._rca_capa`. -/
def pyRcaCapa (data : Dict) : Except PyErr Dict := do
  let diagnosis ← asDict (dictGetD data "diagnosis" (Val.dict []))
  let vehicle_data ← asDict (dictGetD data "vehicle_data" (Val.dict []))
  let component ←
    if pyTruthy (dictGetD diagnosis "findings" Val.none) then
      pyIndex0 (dictGetD diagnosis "findings" (Val.list [Val.s "Unknown"]))
    else pure (Val.s "Unknown")
  let root_cause ←
    if pyTruthy (dictGetD diagnosis "root_causes" Val.none) then
      pyIndex0 (dictGetD diagnosis "root_causes" (Val.list [Val.s "Under investigation"]))
    else pure (Val.s "Under investigation")
  Except.ok
    [("rca_id", Val.s "RCA-XXXXXXXX"),
     ("capa_id", Val.s "CAPA-XXXXXXXX"),
     ("component", component),
     ("root_cause", root_cause),
     ("affected_vehicles", Val.list [dictGetD vehicle_data "vehicle_id" (Val.s "unknown")]),
     ("corrective_action", Val.s "Service and repair affected component"),
     ("preventive_action", Val.s "Implement predictive monitoring threshold"),
     ("status", Val.s "draft"),
     ("created_at", Val.s "TIMESTAMP")]

/-- `BuiltinAgent._generic_task`. -/
def pyGenericTask (data : Dict) : Except PyErr Dict :=
  Except.ok
    [("task_executed", Val.b true),
     ("input_received", Val.list (data.map (fun p => Val.s p.1))),
     ("timestamp", Val.s "TIMESTAMP")]

/-! ## `BuiltinAgent.execute` and the `BuiltinAdapter` -/

/-- Dispatch of `BuiltinAgent.execute` to the task-type handler. -/
def builtinHandler (task_type : String) (data : Dict) : Except PyErr Dict :=
  if task_type == "analyze" then pyAnalyze data
  else if task_type == "diagnose" then pyDiagnose data
  else if task_type == "predict" then pyPredict data
  else if task_type == "schedule" then pySchedule data
  else if task_type == "engage" then pyEngage data
  else if task_type == "feedback" then pyFeedback data
  else if task_type == "rca_capa" then pyRcaCapa data
  else pyGenericTask data

/-- `BuiltinAgent.execute`: run the handler under `try/except`; a
raised exception becomes a failed result carrying `str(e)`.  (The
agent's `history` log and the wall-clock `execution_time_ms` are not
observed by any claim; the time is modelled as 0.) -/
def builtinExecute (agent_id : String) (task : AgentTask) : AgentResult :=
  match builtinHandler task.task_type task.input_data with
  | Except.ok output =>
      { task_id := task.task_id, agent_id := agent_id, success := true, output := output }
  | Except.error e =>
      { task_id := task.task_id, agent_id := agent_id, success := false, output := [],
        error := Option.some e.msg }

/-- The `BuiltinAdapter.agents` registry: insertion-ordered map from
agent id to the created agent (only its type is behaviour-relevant). -/
abbrev AgentRegistry := List (String × AgentType)

/-- `BuiltinAdapter.create_agent`: register (or overwrite) an agent. -/
def builtin_create_agent (agents : AgentRegistry) (agent_type : AgentType)
    (agent_id : String) : AgentRegistry :=
  if agents.any (fun p => p.1 == agent_id) then
    agents.map (fun p => if p.1 == agent_id then (agent_id, agent_type) else p)
  else
    agents ++ [(agent_id, agent_type)]

/-- `BuiltinAdapter.execute_task`: unknown ids give a failed result,
otherwise the agent executes the task. -/
def builtin_execute_task (agents : AgentRegistry) (agent_id : String)
    (task : AgentTask) : AgentResult :=
  match agents.find? (fun p => p.1 == agent_id) with
  | Option.none =>
      { task_id := task.task_id, agent_id := agent_id, success := false, output := [],
        error := Option.some ("Agent " ++ agent_id ++ " not found") }
  | Option.some _ => builtinExecute agent_id task

/-- The static `task_agent_mapping` of
`BuiltinAdapter._select_agent_for_task`. -/
def taskAgentMapping (task_type : String) : Option AgentType :=
  if task_type == "analyze" then Option.some AgentType.data_analysis
  else if task_type == "diagnose" then Option.some AgentType.diagnosis
  else if task_type == "predict" then Option.some AgentType.data_analysis
  else if task_type == "schedule" then Option.some AgentType.scheduling
  else if task_type == "engage" then Option.some AgentType.customer_engagement
  else if task_type == "feedback" then Option.some AgentType.feedback
  else if task_type == "rca_capa" then Option.some AgentType.rca_capa
  else Option.none

/-- `BuiltinAdapter._select_agent_for_task`: first agent of the mapped
type, else the first `master` agent, else nothing. -/
def selectAgentForTask (agents : AgentRegistry) (task : AgentTask) : Option String :=
  let masterFallback := (agents.find? (fun p => p.2 == AgentType.master)).map Prod.fst
  match taskAgentMapping task.task_type with
  | Option.some ty =>
      match agents.find? (fun p => p.2 == ty) with
      | Option.some p => Option.some p.1
      | Option.none => masterFallback
  | Option.none => masterFallback

/-- The `workflow_config` dict of `orchestrate_workflow`, with its two
read keys and their Python defaults. -/
structure WorkflowConfig where
  agent_mapping : List (String × String) := []
  chain_outputs : Bool := true

/-- Agent selection in `orchestrate_workflow`: the explicit
`agent_mapping` entry when truthy, else auto-selection. -/
def selectMappedAgent (cfg : WorkflowConfig) (agents : AgentRegistry)
    (task : AgentTask) : Option String :=
  match (cfg.agent_mapping.find? (fun p => p.1 == task.task_type)).map Prod.snd with
  | Option.some id => if id == "" then selectAgentForTask agents task else Option.some id
  | Option.none => selectAgentForTask agents task

/-- Stable insertion of an (input-position, task) pair into a list
already sorted by ascending priority: the new pair goes before every
pair of equal or larger priority, matching Python's stable `sorted`. -/
def insertByPriority (p : Nat × AgentTask) :
    List (Nat × AgentTask) → List (Nat × AgentTask)
  | [] => [p]
  | q :: qs =>
      if q.2.priority < p.2.priority then q :: insertByPriority p qs
      else p :: q :: qs

/-- `sorted(tasks, key=lambda t: t.priority)` over (position, task)
pairs — ascending priority, stable. -/
def sortByPriority : List (Nat × AgentTask) → List (Nat × AgentTask)
  | [] => []
  | p :: ps => insertByPriority p (sortByPriority ps)

/-- The order in which `orchestrate_workflow` dispatches the input
tasks (the `sorted_tasks` list of line 354). -/
def executionOrder (tasks : List AgentTask) : List AgentTask :=
  (sortByPriority tasks.enum).map Prod.snd

/-- The result appended when no suitable agent exists for a task. -/
def noAgentResult (task : AgentTask) : AgentResult :=
  { task_id := task.task_id, agent_id := "none", success := false, output := [],
    error := Option.some "No suitable agent found for task" }

/-- The in-place chaining mutation of lines 370–374: every task
object with a `task_id` different from the just-executed task's gains
the key `"<task_type>_result"` in its `input_data`. -/
def chainTasks (task : AgentTask) (output : Dict) (st : List AgentTask) :
    List AgentTask :=
  st.map (fun u =>
    if u.task_id == task.task_id then u
    else
      let chained := dictSet u.input_data (task.task_type ++ "_result") (Val.dict output)
      { u with input_data := chained })

/-- One iteration of the `orchestrate_workflow` loop, acting on the
current state of all task objects (`st`, in input order) at the input
position `i` of the task being dispatched. -/
def orchStep (agents : AgentRegistry) (cfg : WorkflowConfig)
    (st : List AgentTask) (i : Nat) : AgentResult × List AgentTask :=
  let task := st.getD i default
  match selectMappedAgent cfg agents task with
  | Option.some aid =>
      if aid == "" then (noAgentResult task, st)
      else
        let r := builtin_execute_task agents aid task
        let st' := if r.success && cfg.chain_outputs then chainTasks task r.output st else st
        (r, st')
  | Option.none => (noAgentResult task, st)

/-- The `orchestrate_workflow` loop over the sorted dispatch
positions, threading the mutable task objects. -/
def orchLoop (agents : AgentRegistry) (cfg : WorkflowConfig) :
    List Nat → List AgentTask → List AgentResult × List AgentTask
  | [], st => ([], st)
  | i :: is, st =>
      let s := orchStep agents cfg st i
      let rest := orchLoop agents cfg is s.2
      (s.1 :: rest.1, rest.2)

/-- `BuiltinAdapter.orchestrate_workflow`: returns the result list and
the final state of the caller's task objects (in input order). -/
def builtin_orchestrate_workflow (agents : AgentRegistry)
    (tasks : List AgentTask) (cfg : WorkflowConfig) :
    List AgentResult × List AgentTask :=
  orchLoop agents cfg ((sortByPriority tasks.enum).map Prod.fst) tasks

/-! ## Master agent (`src/agents/master_agent.py`) -/

/-- `AgentType.value` — the string value of the Python enum member. -/
def AgentType.value : AgentType → String
  | AgentType.master => "master"
  | AgentType.data_analysis => "data_analysis"
  | AgentType.diagnosis => "diagnosis"
  | AgentType.customer_engagement => "customer_engagement"
  | AgentType.scheduling => "scheduling"
  | AgentType.feedback => "feedback"
  | AgentType.rca_capa => "rca_capa"

/-- Generic Python dict assignment `m[k] = v` for string-valued maps. -/
def assocSet {β : Type} (m : List (String × β)) (k : String) (v : β) :
    List (String × β) :=
  if m.any (fun p => p.1 == k) then
    m.map (fun p => if p.1 == k then (k, v) else p)
  else
    m ++ [(k, v)]

/-- The fixed `worker_configs` roster of
`MasterAgent._create_worker_agents`. -/
def workerConfigs : List (AgentType × String) :=
  [(AgentType.data_analysis, "data-analysis-001"),
   (AgentType.diagnosis, "diagnosis-001"),
   (AgentType.customer_engagement, "customer-engagement-001"),
   (AgentType.scheduling, "scheduling-001"),
   (AgentType.feedback, "feedback-001"),
   (AgentType.rca_capa, "rca-capa-001")]

/-- The `worker_agents` map (`agent_type.value -> agent_id`) built by
`_create_worker_agents`. -/
def masterWorkerAgents : List (String × String) :=
  workerConfigs.foldl (fun m c => assocSet m c.1.value c.2) []

/-- The builtin adapter registry after `_create_worker_agents`. -/
def masterRegistry : AgentRegistry :=
  workerConfigs.foldl (fun a c => builtin_create_agent a c.1 c.2) []

/-- `self.worker_agents[kind]` lookup inside the master agent. -/
def workerId (kind : String) : String :=
  ((masterWorkerAgents.find? (fun p => p.1 == kind)).map Prod.snd).getD ""

/-- The agent frameworks selectable via `AGENT_FRAMEWORK`. -/
inductive Framework where
  | builtin
  | langgraph
  | crewai
  | autogen
deriving DecidableEq, Repr

/-- What each adapter's `initialize()` returns, as a function of
whether its optional third-party dependency is importable.  The
builtin adapter always succeeds; the three alternate adapters return
`False` when their dependency is absent (`LANGGRAPH_AVAILABLE`,
`CREWAI_AVAILABLE`, `AUTOGEN_AVAILABLE` guards) and otherwise reach
`is_initialized = True` (no LLM key is configured in the master's
default config, so no other failure path runs). -/
def adapterInit : Framework → Bool → Bool
  | Framework.builtin, _ => true
  | Framework.langgraph, depAvailable => depAvailable
  | Framework.crewai, depAvailable => depAvailable
  | Framework.autogen, depAvailable => depAvailable

/-- `MasterAgent.initialize` (lines 61–86): selects the adapter, and
if the adapter's `initialize()` returns `False`, returns `False`
immediately — `_create_worker_agents` is not reached and
`worker_agents` stays empty.  Returns the success flag together with
the `worker_agents` roster it built. -/
def master_init (fw : Framework) (depAvailable : Bool) :
    Bool × List (String × String) :=
  if adapterInit fw depAvailable then (true, masterWorkerAgents)
  else (false, [])

/-- The per-stage record `{"success": ..., "output": ...}` that
`process_telemetry` stores for a dispatched task. -/
def stageVal (r : AgentResult) : Val :=
  Val.dict [("success", Val.b r.success), ("output", Val.dict r.output)]

/-- The run summary returned by `process_telemetry`: the `results`
dict (its `stages` sub-dict and the optional `status`,
`requires_action` and `error` keys), plus the log of `action_type`s
reported to the UEBA service — an observation channel for the
"behavior check" stages.  The `workflow_id` / `timestamp` fields are
uuid / wall-clock placeholders and are not modelled. -/
structure RunSummary where
  vehicle_id : Val
  stages : Dict
  status : Option String
  requires_action : Option Bool
  error : Option String
  uebaCalls : List String
deriving Repr

/-- The "analyze" task built in stage 2 of `process_telemetry`. -/
def masterAnalysisTask (telemetry : Dict) : AgentTask :=
  { task_id := "WF-XXXXXXXX-analysis", task_type := "analyze",
    description := "Analyze telemetry data",
    input_data := [("telemetry", Val.dict telemetry)], priority := 1 }

/-- The analysis-stage result of `process_telemetry`. -/
def masterAnalysisResult (telemetry : Dict) : AgentResult :=
  builtin_execute_task masterRegistry (workerId "data_analysis")
    (masterAnalysisTask telemetry)

/-- The `needs_diagnosis` condition of `process_telemetry`
(lines 198–201): `prediction.get("failure_probability", 0) > 0.3 or
analysis_result.output.get("overall_status") == "needs_attention"`.
The comparison raises `TypeError` when `failure_probability` is
neither a number nor a boolean. -/
def masterNeedsDiagnosis (telemetry prediction : Dict) : Except PyErr Bool :=
  match valGt (dictGetD prediction "failure_probability" (vInt 0)) ⟨3, 10⟩ with
  | Except.error e => Except.error e
  | Except.ok probHigh =>
      Except.ok (probHigh ||
        valEqStr (dictGet? (masterAnalysisResult telemetry).output "overall_status")
          "needs_attention")

/-- The "diagnose" task built in stage 4 of `process_telemetry`. -/
def masterDiagnosisTask (telemetry prediction : Dict) : AgentTask :=
  { task_id := "WF-XXXXXXXX-diagnosis", task_type := "diagnose",
    description := "Diagnose issues",
    input_data :=
      [("analysis", Val.dict (masterAnalysisResult telemetry).output),
       ("prediction", Val.dict prediction)],
    priority := 1 }

/-- The diagnosis-stage result of `process_telemetry`. -/
def masterDiagnosisResult (telemetry prediction : Dict) : AgentResult :=
  builtin_execute_task masterRegistry (workerId "diagnosis")
    (masterDiagnosisTask telemetry prediction)

/-- `severity in ["high", "critical", "medium"]` (line 226). -/
def sevTriggers (severity : Val) : Bool :=
  valEqStr (Option.some severity) "high" ||
  valEqStr (Option.some severity) "critical" ||
  valEqStr (Option.some severity) "medium"

/-- `MasterAgent._initiate_service_workflow` (lines 242–314): builds
the mock customer, dispatches the "engage" then "schedule" tasks, and
reports the scheduling action to UEBA.  Returns the two stage entries
(in dispatch order) and the UEBA `action_type`s reported.  The only
statement that can raise is `diagnosis.get("findings", ["Service"])[0]`
(IndexError on an explicitly empty findings list, TypeError on a
non-sequence); the two dispatches go through `execute_task`, which
catches worker errors itself. -/
def initiate_service_workflow (vehicle_id : Val) (diagnosis : Dict) :
    Except PyErr (Dict × List String) :=
  let customer : Dict :=
    [("id", Val.s ("CUST-" ++ pyStr vehicle_id)),
     ("name", Val.s "Valued Customer"),
     ("email", Val.s "customer@example.com"),
     ("phone", Val.s "+1-555-0100")]
  match pyIndex0 (dictGetD diagnosis "findings" (Val.list [Val.s "Service"])) with
  | Except.error e => Except.error e
  | Except.ok serviceType =>
  let engage_task : AgentTask :=
    { task_id := "WF-XXXXXXXX-engage", task_type := "engage",
      description := "Engage customer",
      input_data :=
        [("appointment", Val.dict [("service_type", serviceType)]),
         ("customer", Val.dict customer),
         ("diagnosis", Val.dict diagnosis)],
      priority := 2 }
  let engage_result :=
    builtin_execute_task masterRegistry (workerId "customer_engagement") engage_task
  let schedule_task : AgentTask :=
    { task_id := "WF-XXXXXXXX-schedule", task_type := "schedule",
      description := "Schedule service appointment",
      input_data :=
        [("diagnosis", Val.dict diagnosis),
         ("customer", Val.dict customer),
         ("vehicle_id", vehicle_id)],
      priority := 2 }
  let schedule_result :=
    builtin_execute_task masterRegistry (workerId "scheduling") schedule_task
  Except.ok
    ([("engagement", stageVal engage_result),
      ("scheduling", stageVal schedule_result)],
     ["schedule"])

/-- The failure branch of `process_telemetry`'s `try/except`: status
`"failed"`, the `error` key set to `str(e)`, `requires_action` never
assigned, and the stage results collected so far kept. -/
def failedSummary (vehicle_id : Val) (stages : Dict) (e : PyErr)
    (calls : List String) : RunSummary :=
  { vehicle_id := vehicle_id, stages := stages,
    status := Option.some "failed", requires_action := Option.none,
    error := Option.some e.msg, uebaCalls := calls }

/-- The success epilogue of `process_telemetry`: status `"completed"`
and `requires_action = needs_diagnosis`. -/
def completedSummary (vehicle_id : Val) (stages : Dict) (needs : Bool)
    (calls : List String) : RunSummary :=
  { vehicle_id := vehicle_id, stages := stages,
    status := Option.some "completed", requires_action := Option.some needs,
    error := Option.none, uebaCalls := calls }

/-- `MasterAgent.process_telemetry` (lines 140–240), with the builtin
adapter and its standard worker roster.  `uebaResult` and
`prediction` are the dict responses of the two collaborator services
(their HTTP wrappers catch transport errors themselves and always
return a dict). -/
def process_telemetry (telemetry uebaResult prediction : Dict) : RunSummary :=
  let vehicle_id := dictGetD telemetry "vehicle_id" (Val.s "unknown")
  let analysis_result := masterAnalysisResult telemetry
  let baseStages : Dict :=
    [("ueba_check", Val.dict uebaResult),
     ("analysis", stageVal analysis_result),
     ("prediction", Val.dict prediction)]
  match masterNeedsDiagnosis telemetry prediction with
  | Except.error e => failedSummary vehicle_id baseStages e ["query"]
  | Except.ok needs =>
      if needs then
        let diagnosis_result := masterDiagnosisResult telemetry prediction
        let diagStages := baseStages ++ [("diagnosis", stageVal diagnosis_result)]
        let severity := dictGetD diagnosis_result.output "severity" (Val.s "low")
        if sevTriggers severity then
          match initiate_service_workflow vehicle_id diagnosis_result.output with
          | Except.error e => failedSummary vehicle_id diagStages e ["query"]
          | Except.ok (serviceStages, calls) =>
              completedSummary vehicle_id (diagStages ++ serviceStages) needs
                (["query"] ++ calls)
        else completedSummary vehicle_id diagStages needs ["query"]
      else completedSummary vehicle_id baseStages needs ["query"]

/-! ## CrewAI adapter (`src/agents/adapters/crewai_adapter.py`)

`available` models `CREWAI_AVAILABLE` (the import guard);
`kickoffRaises` models the third-party `crew.kickoff()` call raising
at execution time.  Only the agent type of a registration is
behaviour-relevant. -/

/-- `CrewAIAdapter.create_agent` (lines 57–137): with the dependency
absent it logs and returns `None` **without registering anything**;
otherwise the constructed agent is stored under `agent_id`. -/
def crewai_create_agent (available : Bool) (agents : AgentRegistry)
    (agent_type : AgentType) (agent_id : String) : AgentRegistry :=
  if available then assocSet agents agent_id agent_type else agents

/-- `CrewAIAdapter._fallback_execute`: a successful canned result with
`framework = "crewai_fallback"` in both the output and the metadata. -/
def crewai_fallback_execute (agents : AgentRegistry) (agent_id : String)
    (task : AgentTask) : AgentResult :=
  let agent_type :=
    (((agents.find? (fun p => p.1 == agent_id)).map Prod.snd).getD AgentType.master)
  { task_id := task.task_id, agent_id := agent_id, success := true,
    output :=
      [("task_id", Val.s task.task_id),
       ("task_type", Val.s task.task_type),
       ("agent_type", Val.s agent_type.value),
       ("status", Val.s "completed"),
       ("framework", Val.s "crewai_fallback"),
       ("timestamp", Val.s "TIMESTAMP")],
    metadata := Option.some [("framework", Val.s "crewai_fallback")] }

/-- `CrewAIAdapter.execute_task` (lines 139–198): unknown worker ⇒
failed result; dependency absent ⇒ fallback; `crew.kickoff()` raising
⇒ fallback; otherwise the crew's (third-party) result. -/
def crewai_execute_task (available kickoffRaises : Bool)
    (agents : AgentRegistry) (agent_id : String) (task : AgentTask) : AgentResult :=
  match agents.find? (fun p => p.1 == agent_id) with
  | Option.none =>
      { task_id := task.task_id, agent_id := agent_id, success := false, output := [],
        error := Option.some ("Agent " ++ agent_id ++ " not found") }
  | Option.some _ =>
      if !available then crewai_fallback_execute agents agent_id task
      else if kickoffRaises then crewai_fallback_execute agents agent_id task
      else
        { task_id := task.task_id, agent_id := agent_id, success := true,
          output := [("result", Val.s "CREW-OUTPUT"), ("raw", Val.s "CREW-OUTPUT")],
          metadata := Option.some [("framework", Val.s "crewai")] }

/-! ## AutoGen adapter (`src/agents/adapters/autogen_adapter.py`)

`available` models `AUTOGEN_AVAILABLE` together with `self.user_proxy`
being set (both hold exactly when `initialize()` succeeded with the
dependency importable); `chatRaises` models `initiate_chat` raising. -/

/-- The canned per-agent-type payload of
`AutoGenAdapter._fallback_execute`. -/
def autogenFallbackResponse : AgentType → Dict
  | AgentType.data_analysis =>
      [("analysis", Val.s "Data analysis complete"),
       ("patterns_detected", Val.list [Val.s "normal_operation"]),
       ("anomalies", Val.list [])]
  | AgentType.diagnosis =>
      [("diagnosis", Val.s "No critical issues found"),
       ("recommendations", Val.list [Val.s "Continue regular maintenance"])]
  | AgentType.customer_engagement =>
      [("message", Val.s "Thank you for using AutoSentry AI. Your vehicle is in good condition."),
       ("channel", Val.s "chat")]
  | AgentType.scheduling =>
      [("appointment_id", Val.s "APT-XXXXXXXX"), ("status", Val.s "available")]
  | AgentType.feedback =>
      [("survey_sent", Val.b true), ("feedback_id", Val.s "FB-XXXXXXXX")]
  | AgentType.rca_capa =>
      [("rca_complete", Val.b true), ("capa_id", Val.s "CAPA-XXXXXXXX")]
  | AgentType.master => [("status", Val.s "completed")]

/-- `AutoGenAdapter._fallback_execute`: the canned payload plus
`task_id` / `framework = "autogen_fallback"` / timestamp keys, always
successful, metadata marking the fallback. -/
def autogen_fallback_execute (agents : AgentRegistry) (agent_id : String)
    (task : AgentTask) : AgentResult :=
  let agent_type :=
    (((agents.find? (fun p => p.1 == agent_id)).map Prod.snd).getD AgentType.master)
  let output0 := autogenFallbackResponse agent_type
  let output := dictSet (dictSet (dictSet output0 "task_id" (Val.s task.task_id))
    "framework" (Val.s "autogen_fallback")) "timestamp" (Val.s "TIMESTAMP")
  { task_id := task.task_id, agent_id := agent_id, success := true,
    output := output,
    metadata := Option.some [("framework", Val.s "autogen_fallback")] }

/-- `AutoGenAdapter.create_agent` (lines 88–157): with the dependency
absent it returns `None` without registering anything. -/
def autogen_create_agent (available : Bool) (agents : AgentRegistry)
    (agent_type : AgentType) (agent_id : String) : AgentRegistry :=
  if available then assocSet agents agent_id agent_type else agents

/-- `AutoGenAdapter.execute_task` (lines 159–219). -/
def autogen_execute_task (available chatRaises : Bool)
    (agents : AgentRegistry) (agent_id : String) (task : AgentTask) : AgentResult :=
  match agents.find? (fun p => p.1 == agent_id) with
  | Option.none =>
      { task_id := task.task_id, agent_id := agent_id, success := false, output := [],
        error := Option.some ("Agent " ++ agent_id ++ " not found") }
  | Option.some _ =>
      if !available then autogen_fallback_execute agents agent_id task
      else if chatRaises then autogen_fallback_execute agents agent_id task
      else
        { task_id := task.task_id, agent_id := agent_id, success := true,
          output := [("response", Val.s "CHAT-RESPONSE"), ("message_count", vInt 1)],
          metadata := Option.some [("framework", Val.s "autogen")] }

/-! ## LangGraph adapter (`src/agents/adapters/langgraph_adapter.py`)

The compiled graph of an agent runs exactly one node, chosen by the
agent's type at creation time; the node functions are pure Python and
are embedded directly.  `create_agent` registers nothing when
`LANGGRAPH_AVAILABLE` is false. -/

/-- `LangGraphAdapter.create_agent` (lines 72–95). -/
def langgraph_create_agent (available : Bool) (agents : AgentRegistry)
    (agent_type : AgentType) (agent_id : String) : AgentRegistry :=
  if available then assocSet agents agent_id agent_type else agents

/-- `LangGraphAdapter._analyze_node`: three health indicators (no
brakes check), tagged `analyzed_by = "langgraph"`.  The comparisons
raise `TypeError` on non-numeric telemetry values, which
`execute_task` catches. -/
def langgraphAnalyzeNode (input_data : Dict) : Except PyErr Dict := do
  let telemetry ← asDict (dictGetD input_data "telemetry" (Val.dict []))
  let engineGood ← valLt (dictGetD telemetry "engine_temp" (vInt 90)) ⟨100, 1⟩
  let oilGood ← valGt (dictGetD telemetry "oil_pressure" (vInt 40)) ⟨30, 1⟩
  let batteryGood ← valGt (dictGetD telemetry "battery_voltage" (vInt 12)) ⟨115, 10⟩
  let indicator := fun (good : Bool) => Val.s (if good then "good" else "warning")
  Except.ok
    [("vehicle_id", dictGetD telemetry "vehicle_id" (Val.s "unknown")),
     ("health_indicators", Val.dict
       [("engine", indicator engineGood), ("oil", indicator oilGood),
        ("battery", indicator batteryGood)]),
     ("analyzed_by", Val.s "langgraph")]

/-- The single node run by a LangGraph agent's graph, by agent type
(`_create_agent_graph` wiring plus the node bodies). -/
def langgraphNode (agent_type : AgentType) (input_data : Dict) : Except PyErr Dict :=
  match agent_type with
  | AgentType.data_analysis => langgraphAnalyzeNode input_data
  | AgentType.diagnosis =>
      Except.ok
        [("diagnosis_id", Val.s "DX-XXXXXXXX"),
         ("findings", Val.list [Val.s "Analysis complete"]),
         ("diagnosed_by", Val.s "langgraph")]
  | AgentType.customer_engagement =>
      Except.ok
        [("engagement_id", Val.s "ENG-XXXXXXXX"),
         ("message", Val.s "Your vehicle requires attention."),
         ("engaged_by", Val.s "langgraph")]
  | AgentType.scheduling =>
      Except.ok
        [("appointment_id", Val.s "APT-XXXXXXXX"),
         ("status", Val.s "scheduled"),
         ("scheduled_by", Val.s "langgraph")]
  | _ => Except.ok [("processed", Val.b true)]

/-- `LangGraphAdapter.execute_task` (lines 223–279): unknown worker ⇒
failed result; a raising graph invocation ⇒ failed result with the
exception text; otherwise the node's output with
`metadata.framework = "langgraph"` (there is **no** fallback path in
this adapter). -/
def langgraph_execute_task (agents : AgentRegistry) (agent_id : String)
    (task : AgentTask) : AgentResult :=
  match agents.find? (fun p => p.1 == agent_id) with
  | Option.none =>
      { task_id := task.task_id, agent_id := agent_id, success := false, output := [],
        error := Option.some ("Agent " ++ agent_id ++ " not found") }
  | Option.some p =>
      match langgraphNode p.2 task.input_data with
      | Except.ok out =>
          { task_id := task.task_id, agent_id := agent_id, success := true,
            output := out, metadata := Option.some [("framework", Val.s "langgraph")] }
      | Except.error e =>
          { task_id := task.task_id, agent_id := agent_id, success := false,
            output := [], error := Option.some e.msg }

/-- `LangGraphAdapter._find_agent_for_task`: first agent of the mapped
type, else the first registered agent of any type. -/
def langgraphFindAgent (agents : AgentRegistry) (task : AgentTask) : Option String :=
  let target : Option AgentType :=
    if task.task_type == "analyze" then Option.some AgentType.data_analysis
    else if task.task_type == "diagnose" then Option.some AgentType.diagnosis
    else if task.task_type == "engage" then Option.some AgentType.customer_engagement
    else if task.task_type == "schedule" then Option.some AgentType.scheduling
    else Option.none
  match target with
  | Option.some ty =>
      match agents.find? (fun p => p.2 == ty) with
      | Option.some p => Option.some p.1
      | Option.none => agents.head?.map Prod.fst
  | Option.none => agents.head?.map Prod.fst

/-- `LangGraphAdapter.orchestrate_workflow` (lines 281–303): the tasks
in stable ascending-priority order, one result each, no chaining. -/
def langgraph_orchestrate_workflow (agents : AgentRegistry)
    (tasks : List AgentTask) : List AgentResult :=
  (executionOrder tasks).map (fun task =>
    match langgraphFindAgent agents task with
    | Option.some aid =>
        if aid == "" then
          { task_id := task.task_id, agent_id := "none", success := false, output := [],
            error := Option.some "No suitable agent found" }
        else langgraph_execute_task agents aid task
    | Option.none =>
        { task_id := task.task_id, agent_id := "none", success := false, output := [],
          error := Option.some "No suitable agent found" })

/-! ## Properties of the stable priority sort -/

theorem insertByPriority_perm (p : Nat × AgentTask) (l : List (Nat × AgentTask)) :
    List.Perm (insertByPriority p l) (p :: l) := by
  induction l with
  | nil => simp [insertByPriority]
  | cons q qs ih =>
      simp only [insertByPriority]
      split
      · exact (ih.cons q).trans (List.Perm.swap p q qs)
      · exact List.Perm.refl _

theorem sortByPriority_perm (l : List (Nat × AgentTask)) :
    List.Perm (sortByPriority l) l := by
  induction l with
  | nil => exact List.Perm.refl _
  | cons p ps ih => exact (insertByPriority_perm p (sortByPriority ps)).trans (ih.cons p)

theorem insertByPriority_pairwise (p : Nat × AgentTask) (l : List (Nat × AgentTask))
    (h : l.Pairwise (fun a b => a.2.priority ≤ b.2.priority)) :
    (insertByPriority p l).Pairwise (fun a b => a.2.priority ≤ b.2.priority) := by
  induction l with
  | nil => simp [insertByPriority]
  | cons q qs ih =>
      rw [List.pairwise_cons] at h
      simp only [insertByPriority]
      split
      · rename_i hlt
        rw [List.pairwise_cons]
        constructor
        · intro x hx
          have hx' : x ∈ p :: qs := (insertByPriority_perm p qs).mem_iff.mp hx
          rcases List.mem_cons.mp hx' with hx' | hx'
          · subst hx'; exact le_of_lt hlt
          · exact h.1 x hx'
        · exact ih h.2
      · rename_i hge
        rw [List.pairwise_cons]
        constructor
        · intro x hx
          rcases List.mem_cons.mp hx with hx | hx
          · subst hx; exact le_of_not_lt hge
          · exact le_trans (le_of_not_lt hge) (h.1 x hx)
        · exact List.pairwise_cons.mpr h

theorem sortByPriority_pairwise (l : List (Nat × AgentTask)) :
    (sortByPriority l).Pairwise (fun a b => a.2.priority ≤ b.2.priority) := by
  induction l with
  | nil => simp [sortByPriority]
  | cons p ps ih => exact insertByPriority_pairwise p _ ih

theorem filter_insertByPriority (pr : Int) (p : Nat × AgentTask)
    (l : List (Nat × AgentTask)) :
    (insertByPriority p l).filter (fun q => q.2.priority == pr) =
      if p.2.priority = pr then p :: l.filter (fun q => q.2.priority == pr)
      else l.filter (fun q => q.2.priority == pr) := by
  induction l with
  | nil =>
      by_cases hp : p.2.priority = pr <;>
        simp [insertByPriority, List.filter_cons, hp]
  | cons q qs ih =>
      simp only [insertByPriority]
      split
      · rename_i hlt
        by_cases hp : p.2.priority = pr
        · have hq : ¬ q.2.priority = pr := by omega
          simp [List.filter_cons, hq, hp, ih]
        · simp [List.filter_cons, hp, ih]
      · by_cases hp : p.2.priority = pr <;> simp [List.filter_cons, hp]

theorem sortByPriority_filter (pr : Int) (l : List (Nat × AgentTask)) :
    (sortByPriority l).filter (fun q => q.2.priority == pr) =
      l.filter (fun q => q.2.priority == pr) := by
  induction l with
  | nil => rfl
  | cons p ps ih =>
      simp only [sortByPriority, filter_insertByPriority, ih]
      by_cases hp : p.2.priority = pr <;> simp [List.filter_cons, hp]

theorem executionOrder_length (tasks : List AgentTask) :
    (executionOrder tasks).length = tasks.length := by
  unfold executionOrder
  rw [List.length_map, (sortByPriority_perm tasks.enum).length_eq, List.enum_length]

/-- The three spec-level properties of the dispatch order: ascending
priorities, per-priority stability, and permutation of the input. -/
theorem executionOrder_spec (tasks : List AgentTask) :
    ((executionOrder tasks).map AgentTask.priority).Pairwise (· ≤ ·) ∧
    (∀ pr : Int, (executionOrder tasks).filter (fun t => t.priority == pr) =
      tasks.filter (fun t => t.priority == pr)) ∧
    (executionOrder tasks).Perm tasks := by
  refine ⟨?_, ?_, ?_⟩
  · unfold executionOrder
    rw [List.map_map, List.pairwise_map]
    exact sortByPriority_pairwise tasks.enum
  · intro pr
    calc (executionOrder tasks).filter (fun t => t.priority == pr)
        = ((sortByPriority tasks.enum).filter (fun q => q.2.priority == pr)).map Prod.snd := by
          unfold executionOrder
          rw [List.filter_map]
          rfl
      _ = (tasks.enum.filter (fun q => q.2.priority == pr)).map Prod.snd := by
          rw [sortByPriority_filter]
      _ = tasks.filter (fun t => t.priority == pr) := by
          conv_rhs => rw [← List.enum_map_snd tasks]
          rw [List.filter_map]
          rfl
  · unfold executionOrder
    have h := (sortByPriority_perm tasks.enum).map Prod.snd
    rwa [List.enum_map_snd] at h

/-! ## Frame and shape invariants of the orchestration loop -/

/-- Every task field except the (chain-mutable) `input_data`. -/
def taskSkel (t : AgentTask) : String × String × String × Int × Int × Int × Int :=
  (t.task_id, t.task_type, t.description, t.priority, t.timeout_seconds,
   t.retry_count, t.max_retries)

theorem chainTasks_skel (task : AgentTask) (output : Dict) (st : List AgentTask) :
    (chainTasks task output st).map taskSkel = st.map taskSkel := by
  unfold chainTasks
  rw [List.map_map]
  apply List.map_congr_left
  intro u _
  simp only [Function.comp]
  split <;> rfl

theorem orchStep_snd_skel (agents : AgentRegistry) (cfg : WorkflowConfig)
    (st : List AgentTask) (i : Nat) :
    ((orchStep agents cfg st i).2).map taskSkel = st.map taskSkel := by
  rcases hsel : selectMappedAgent cfg agents (st.getD i default) with _ | aid
  · simp only [orchStep, hsel]
  · simp only [orchStep, hsel]
    split
    · rfl
    · simp only
      split
      · exact chainTasks_skel _ _ _
      · rfl

theorem builtin_execute_task_task_id (agents : AgentRegistry) (aid : String)
    (task : AgentTask) :
    (builtin_execute_task agents aid task).task_id = task.task_id := by
  unfold builtin_execute_task
  cases agents.find? (fun p => p.1 == aid) with
  | none => rfl
  | some p =>
      simp only
      unfold builtinExecute
      cases builtinHandler task.task_type task.input_data with
      | ok out => rfl
      | error e => rfl

theorem orchStep_fst_task_id (agents : AgentRegistry) (cfg : WorkflowConfig)
    (st : List AgentTask) (i : Nat) :
    ((orchStep agents cfg st i).1).task_id = (st.getD i default).task_id := by
  rcases hsel : selectMappedAgent cfg agents (st.getD i default) with _ | aid
  · simp only [orchStep, hsel]
    rfl
  · simp only [orchStep, hsel]
    split
    · rfl
    · exact builtin_execute_task_task_id agents aid _

theorem orchLoop_snd_skel (agents : AgentRegistry) (cfg : WorkflowConfig)
    (order : List Nat) :
    ∀ st : List AgentTask,
      ((orchLoop agents cfg order st).2).map taskSkel = st.map taskSkel := by
  induction order with
  | nil => intro st; rfl
  | cons i is ih =>
      intro st
      simp only [orchLoop]
      rw [ih, orchStep_snd_skel]

theorem orchLoop_fst_length (agents : AgentRegistry) (cfg : WorkflowConfig)
    (order : List Nat) :
    ∀ st : List AgentTask,
      (orchLoop agents cfg order st).1.length = order.length := by
  induction order with
  | nil => intro st; rfl
  | cons i is ih =>
      intro st
      simp only [orchLoop, List.length_cons, ih]

theorem getD_task_id_of_map_skel :
    ∀ (l₁ l₂ : List AgentTask), l₁.map taskSkel = l₂.map taskSkel →
      ∀ i : Nat, (l₁.getD i default).task_id = (l₂.getD i default).task_id := by
  intro l₁
  induction l₁ with
  | nil =>
      intro l₂ h i
      cases l₂ with
      | nil => rfl
      | cons b m => simp at h
  | cons a l ih =>
      intro l₂ h i
      cases l₂ with
      | nil => simp at h
      | cons b m =>
          simp only [List.map_cons, List.cons.injEq] at h
          cases i with
          | zero =>
              simp only [List.getD_cons_zero]
              exact congrArg Prod.fst h.1
          | succ n =>
              simp only [List.getD_cons_succ]
              exact ih m h.2 n

theorem orchLoop_fst_ids (agents : AgentRegistry) (cfg : WorkflowConfig)
    (order : List Nat) :
    ∀ st : List AgentTask,
      (orchLoop agents cfg order st).1.map AgentResult.task_id =
        order.map (fun i => (st.getD i default).task_id) := by
  induction order with
  | nil => intro st; rfl
  | cons i is ih =>
      intro st
      simp only [orchLoop, List.map_cons]
      rw [orchStep_fst_task_id, ih]
      refine congrArg (fun l => _ :: l) ?_
      apply List.map_congr_left
      intro j _
      exact getD_task_id_of_map_skel _ _ (orchStep_snd_skel agents cfg st i) j

theorem builtin_orchestrate_ids (agents : AgentRegistry) (cfg : WorkflowConfig)
    (tasks : List AgentTask) :
    (builtin_orchestrate_workflow agents tasks cfg).1.map AgentResult.task_id =
      (executionOrder tasks).map AgentTask.task_id := by
  unfold builtin_orchestrate_workflow executionOrder
  rw [orchLoop_fst_ids, List.map_map, List.map_map]
  apply List.map_congr_left
  intro p hp
  obtain ⟨i, t⟩ := p
  have hmem : (i, t) ∈ tasks.enum := (sortByPriority_perm _).mem_iff.mp hp
  have hget : tasks[i]? = some t := List.mk_mem_enum_iff_getElem?.mp hmem
  simp only [Function.comp]
  have : tasks.getD i default = t := by
    simp [List.getD_eq_getElem?_getD, hget]
  rw [this]

theorem builtin_orchestrate_length (agents : AgentRegistry) (cfg : WorkflowConfig)
    (tasks : List AgentTask) :
    (builtin_orchestrate_workflow agents tasks cfg).1.length = tasks.length := by
  unfold builtin_orchestrate_workflow
  rw [orchLoop_fst_length, List.length_map,
    (sortByPriority_perm tasks.enum).length_eq, List.enum_length]

theorem langgraph_result_task_id (agents : AgentRegistry) (aid : String)
    (task : AgentTask) :
    (langgraph_execute_task agents aid task).task_id = task.task_id := by
  unfold langgraph_execute_task
  cases agents.find? (fun p => p.1 == aid) with
  | none => rfl
  | some p =>
      simp only
      cases langgraphNode p.2 task.input_data with
      | ok out => rfl
      | error e => rfl

theorem langgraph_orchestrate_ids (agents : AgentRegistry) (tasks : List AgentTask) :
    (langgraph_orchestrate_workflow agents tasks).map AgentResult.task_id =
      (executionOrder tasks).map AgentTask.task_id := by
  unfold langgraph_orchestrate_workflow
  rw [List.map_map]
  apply List.map_congr_left
  intro task _
  simp only [Function.comp]
  cases langgraphFindAgent agents task with
  | none => rfl
  | some aid =>
      simp only
      split
      · rfl
      · exact langgraph_result_task_id agents aid task

/-! ## Claim theorems: batch workflow shape, ordering and frame -/

/-- A minimal task for concrete batch scenarios. -/
def exTask (id : String) (pr : Int) : AgentTask :=
  { task_id := id, task_type := "analyze", description := "", input_data := [],
    priority := pr }

/-- C1 (counterexample): `orchestrate_workflow` does **not** return
results in input order — with input priorities `[2, 1]` the result
list is aligned to the priority-sorted execution order `["B", "A"]`,
not to the input order `["A", "B"]`. -/
theorem claim_C1_counterexample :
    (builtin_orchestrate_workflow masterRegistry
        [exTask "A" 2, exTask "B" 1] {}).1.map AgentResult.task_id ≠
      [exTask "A" 2, exTask "B" 1].map AgentTask.task_id := by
  decide

/-- C1 (amended): every `orchestrate_workflow` batch returns exactly
one result per input task, and the results are aligned 1:1 with the
priority-sorted (stable) execution order — which coincides with input
order only when the input is already sorted by priority.  Holds for
the builtin and the LangGraph adapter. -/
theorem claim_C1_run_workflow_shape :
    ∀ (agents : AgentRegistry) (cfg : WorkflowConfig) (tasks : List AgentTask),
      (builtin_orchestrate_workflow agents tasks cfg).1.length = tasks.length ∧
      (builtin_orchestrate_workflow agents tasks cfg).1.map AgentResult.task_id =
        (executionOrder tasks).map AgentTask.task_id ∧
      (langgraph_orchestrate_workflow agents tasks).length = tasks.length ∧
      (langgraph_orchestrate_workflow agents tasks).map AgentResult.task_id =
        (executionOrder tasks).map AgentTask.task_id := by
  intro agents cfg tasks
  refine ⟨builtin_orchestrate_length agents cfg tasks,
    builtin_orchestrate_ids agents cfg tasks, ?_,
    langgraph_orchestrate_ids agents tasks⟩
  unfold langgraph_orchestrate_workflow
  rw [List.length_map, executionOrder_length]

/-- C6 (confirmed): `orchestrate_workflow` dispatches tasks in
ascending priority order; equal priorities keep their input order
(stable sort); the dispatch order is a permutation of the input; the
result list records that dispatch order; and the concrete input with
priorities `[3, 1, 2]` is executed in order `[1, 2, 3]`. -/
theorem claim_C6_priority_order :
    (∀ tasks : List AgentTask,
      ((executionOrder tasks).map AgentTask.priority).Pairwise (· ≤ ·) ∧
      (∀ pr : Int, (executionOrder tasks).filter (fun t => t.priority == pr) =
        tasks.filter (fun t => t.priority == pr)) ∧
      (executionOrder tasks).Perm tasks ∧
      (∀ (agents : AgentRegistry) (cfg : WorkflowConfig),
        (builtin_orchestrate_workflow agents tasks cfg).1.map AgentResult.task_id =
          (executionOrder tasks).map AgentTask.task_id)) ∧
    (executionOrder [exTask "a" 3, exTask "b" 1, exTask "c" 2]).map
        AgentTask.priority = [1, 2, 3] := by
  constructor
  · intro tasks
    obtain ⟨h1, h2, h3⟩ := executionOrder_spec tasks
    exact ⟨h1, h2, h3, fun agents cfg => builtin_orchestrate_ids agents cfg tasks⟩
  · decide

/-- C5 (counterexample): tasks are **not** immutable apart from
`retry_count` — after a two-task batch with default `chain_outputs`,
each input task's `input_data` has gained an `"analyze_result"` key
from the other task's output. -/
theorem claim_C5_counterexample :
    ((builtin_orchestrate_workflow masterRegistry
        [exTask "A" 2, exTask "B" 1] {}).2).map (fun t => t.input_data) ≠
      [exTask "A" 2, exTask "B" 1].map (fun t => t.input_data) := by
  intro h
  exact absurd (congrArg (List.map (List.map Prod.fst)) h) (by decide)

/-- C5 (amended): `orchestrate_workflow` leaves every task field
except `input_data` unchanged (in particular `retry_count`, which no
adapter code path ever increments); `input_data` alone may gain
`"<task_type>_result"` keys through output chaining. -/
theorem claim_C5_frame :
    ∀ (agents : AgentRegistry) (cfg : WorkflowConfig) (tasks : List AgentTask),
      ((builtin_orchestrate_workflow agents tasks cfg).2).map taskSkel =
        tasks.map taskSkel := by
  intro agents cfg tasks
  unfold builtin_orchestrate_workflow
  exact orchLoop_snd_skel agents cfg _ tasks

/-! ## Claim theorems: adapter fallback and master initialisation -/

/-- C2 (counterexample): with the LangGraph framework configured and
its dependency unavailable, the adapter's `initialize()` returns
false and `MasterAgent.initialize` then returns false with an **empty**
worker roster — worker creation and workflow execution are not
reached, contrary to the claim. -/
theorem claim_C2_counterexample :
    adapterInit Framework.langgraph false = false ∧
    master_init Framework.langgraph false = (false, []) := by
  decide

/-- C2 (amended): a false `initialize()` from the configured Backend
Variant makes `MasterAgent.initialize` return false with no workers
created; the six-worker roster is created exactly when `initialize()`
returns true. -/
theorem claim_C2_init_gates_workers :
    ∀ (fw : Framework) (dep : Bool),
      (adapterInit fw dep = false → master_init fw dep = (false, [])) ∧
      (adapterInit fw dep = true →
        master_init fw dep = (true, masterWorkerAgents) ∧
        masterWorkerAgents.length = 6) := by
  intro fw dep
  constructor
  · intro h
    simp [master_init, h]
  · intro h
    refine ⟨by simp [master_init, h], by decide⟩

theorem claim_C2_witness :
    master_init Framework.langgraph false = (false, []) ∧
    master_init Framework.builtin true = (true, masterWorkerAgents) :=
  ⟨(claim_C2_init_gates_workers Framework.langgraph false).1 rfl,
   ((claim_C2_init_gates_workers Framework.builtin true).2 rfl).1⟩

/-- The `metadata.framework` entry of a result. -/
def metadataFramework (r : AgentResult) : Option Val :=
  match r.metadata with
  | Option.some m => dictGet? m "framework"
  | Option.none => Option.none

/-- A "diagnose" task for concrete adapter scenarios. -/
def cxDiagnoseTask : AgentTask :=
  { task_id := "T1", task_type := "diagnose", description := "", input_data := [] }

/-- C3 (counterexample): with the CrewAI dependency unavailable,
`create_agent` registers nothing, so a subsequent `execute_task` for
the created worker returns `success = false` with no metadata — not a
successful `_fallback` result as the claim states. -/
theorem claim_C3_counterexample :
    crewai_create_agent false [] AgentType.diagnosis "diagnosis-001" =
      ([] : AgentRegistry) ∧
    (crewai_execute_task false false
      (crewai_create_agent false [] AgentType.diagnosis "diagnosis-001")
      "diagnosis-001" cxDiagnoseTask).success = false ∧
    (crewai_execute_task false false
      (crewai_create_agent false [] AgentType.diagnosis "diagnosis-001")
      "diagnosis-001" cxDiagnoseTask).metadata.isNone = true := by
  decide

/-- C3 (amended): for a worker that **is registered**, the CrewAI and
AutoGen adapters do synthesize a successful substitute result with
`metadata.framework = "<name>_fallback"` (a `_fallback`-suffixed tag)
when the dependency is unavailable or the third-party call raises;
but with the dependency unavailable `create_agent` registers nothing
(for CrewAI, AutoGen and LangGraph alike), so execute-after-create
under an absent dependency yields a failed "Agent not found" result
instead, and the LangGraph adapter has no fallback path at all. -/
theorem claim_C3_fallback_semantics :
    ∀ (kick : Bool) (agents : AgentRegistry) (aid : String) (task : AgentTask),
      (agents.find? (fun p => p.1 == aid)).isSome = true →
      ((crewai_execute_task false kick agents aid task).success = true ∧
       metadataFramework (crewai_execute_task false kick agents aid task) =
         Option.some (Val.s "crewai_fallback") ∧
       (crewai_execute_task true true agents aid task).success = true ∧
       metadataFramework (crewai_execute_task true true agents aid task) =
         Option.some (Val.s "crewai_fallback") ∧
       (autogen_execute_task false kick agents aid task).success = true ∧
       metadataFramework (autogen_execute_task false kick agents aid task) =
         Option.some (Val.s "autogen_fallback") ∧
       "crewai_fallback" = "crewai" ++ "_fallback" ∧
       "autogen_fallback" = "autogen" ++ "_fallback") ∧
      (∀ ty : AgentType,
        crewai_create_agent false agents ty aid = agents ∧
        autogen_create_agent false agents ty aid = agents ∧
        langgraph_create_agent false agents ty aid = agents) := by
  intro kick agents aid task h
  obtain ⟨p, hp⟩ := Option.isSome_iff_exists.mp h
  constructor
  · refine ⟨?_, ?_, ?_, ?_, ?_, ?_, rfl, rfl⟩ <;>
      simp [crewai_execute_task, autogen_execute_task, hp,
        crewai_fallback_execute, autogen_fallback_execute,
        metadataFramework, dictGet?]
  · intro ty
    exact ⟨by simp [crewai_create_agent], by simp [autogen_create_agent],
      by simp [langgraph_create_agent]⟩

/-- A registry with one registered diagnosis worker. -/
def cxRegistered : AgentRegistry := [("diagnosis-001", AgentType.diagnosis)]

theorem claim_C3_witness :
    (crewai_execute_task false false cxRegistered "diagnosis-001"
      cxDiagnoseTask).success = true ∧
    metadataFramework (crewai_execute_task false false cxRegistered
      "diagnosis-001" cxDiagnoseTask) = Option.some (Val.s "crewai_fallback") ∧
    (autogen_execute_task false false cxRegistered "diagnosis-001"
      cxDiagnoseTask).success = true :=
  ⟨((claim_C3_fallback_semantics false cxRegistered "diagnosis-001"
      cxDiagnoseTask (by decide)).1).1,
   ((claim_C3_fallback_semantics false cxRegistered "diagnosis-001"
      cxDiagnoseTask (by decide)).1).2.1,
   ((claim_C3_fallback_semantics false cxRegistered "diagnosis-001"
      cxDiagnoseTask (by decide)).1).2.2.2.2.1⟩

/-! ## Claim theorems: no exception escapes task execution -/

/-- A result is safe when failure always carries a non-empty error. -/
def safeResult (r : AgentResult) : Prop :=
  r.success = false → ∃ msg, r.error = Option.some msg ∧ msg ≠ ""

theorem agent_not_found_ne_empty (aid : String) :
    ("Agent " ++ aid ++ " not found") ≠ "" := by
  intro h
  have h2 := congrArg String.length h
  rw [String.length_append, String.length_append] at h2
  simp only [show ("Agent " : String).length = 6 from rfl,
    show (" not found" : String).length = 10 from rfl,
    show ("" : String).length = 0 from rfl] at h2
  omega

theorem builtinExecute_safe (aid : String) (task : AgentTask) :
    safeResult (builtinExecute aid task) := by
  unfold safeResult builtinExecute
  cases builtinHandler task.task_type task.input_data with
  | ok out => intro hs; simp at hs
  | error e => intro _; exact ⟨e.msg, rfl, PyErr.msg_ne_empty e⟩

theorem builtin_execute_task_safe (agents : AgentRegistry) (aid : String)
    (task : AgentTask) : safeResult (builtin_execute_task agents aid task) := by
  unfold builtin_execute_task
  cases agents.find? (fun p => p.1 == aid) with
  | none => intro _; exact ⟨_, rfl, agent_not_found_ne_empty aid⟩
  | some p => exact builtinExecute_safe aid task

theorem noAgentResult_safe (task : AgentTask) : safeResult (noAgentResult task) := by
  intro _
  exact ⟨_, rfl, by decide⟩

theorem orchStep_fst_safe (agents : AgentRegistry) (cfg : WorkflowConfig)
    (st : List AgentTask) (i : Nat) : safeResult (orchStep agents cfg st i).1 := by
  rcases hsel : selectMappedAgent cfg agents (st.getD i default) with _ | aid
  · simp only [orchStep, hsel]
    exact noAgentResult_safe _
  · simp only [orchStep, hsel]
    split
    · exact noAgentResult_safe _
    · exact builtin_execute_task_safe agents aid _

theorem orchLoop_fst_safe (agents : AgentRegistry) (cfg : WorkflowConfig)
    (order : List Nat) :
    ∀ (st : List AgentTask) (r : AgentResult),
      r ∈ (orchLoop agents cfg order st).1 → safeResult r := by
  induction order with
  | nil => intro st r h; simp [orchLoop] at h
  | cons i is ih =>
      intro st r h
      simp only [orchLoop, List.mem_cons] at h
      rcases h with h | h
      · subst h; exact orchStep_fst_safe agents cfg st i
      · exact ih _ r h

theorem langgraph_execute_task_safe (agents : AgentRegistry) (aid : String)
    (task : AgentTask) : safeResult (langgraph_execute_task agents aid task) := by
  unfold langgraph_execute_task
  cases agents.find? (fun p => p.1 == aid) with
  | none => intro _; exact ⟨_, rfl, agent_not_found_ne_empty aid⟩
  | some p =>
      simp only
      cases langgraphNode p.2 task.input_data with
      | ok out => intro hs; simp at hs
      | error e => intro _; exact ⟨e.msg, rfl, PyErr.msg_ne_empty e⟩

/-- C4 (confirmed): task execution never lets an error escape — a
raised handler exception is converted into a failed result carrying
`str(e)`; `execute_task` (builtin and LangGraph, including on
unregistered worker ids) and every result of `orchestrate_workflow`
are total functions whose failed results always carry a non-empty
error message. -/
theorem claim_C4_no_exception_escape :
    (∀ (aid : String) (task : AgentTask) (e : PyErr),
      builtinHandler task.task_type task.input_data = Except.error e →
      (builtinExecute aid task).success = false ∧
      (builtinExecute aid task).error = Option.some e.msg) ∧
    (∀ (agents : AgentRegistry) (aid : String) (task : AgentTask),
      safeResult (builtin_execute_task agents aid task)) ∧
    (∀ (agents : AgentRegistry) (cfg : WorkflowConfig) (tasks : List AgentTask),
      ∀ r ∈ (builtin_orchestrate_workflow agents tasks cfg).1, safeResult r) ∧
    (∀ (agents : AgentRegistry) (aid : String) (task : AgentTask),
      safeResult (langgraph_execute_task agents aid task)) := by
  refine ⟨?_, builtin_execute_task_safe, ?_, langgraph_execute_task_safe⟩
  · intro aid task e h
    unfold builtinExecute
    rw [h]
    exact ⟨rfl, rfl⟩
  · intro agents cfg tasks r hr
    exact orchLoop_fst_safe agents cfg _ tasks r hr

/-- An "analyze" task whose telemetry is not a dict, so the builtin
handler raises `AttributeError`. -/
def cxBadAnalyzeTask : AgentTask :=
  { task_id := "T2", task_type := "analyze", description := "",
    input_data := [("telemetry", Val.s "oops")] }

theorem claim_C4_witness :
    ((builtinExecute "data-analysis-001" cxBadAnalyzeTask).success = false ∧
     (builtinExecute "data-analysis-001" cxBadAnalyzeTask).error =
       Option.some PyErr.attributeError.msg) ∧
    ((builtin_execute_task [] "ghost" cxDiagnoseTask).success = false ∧
     ∃ msg, (builtin_execute_task [] "ghost" cxDiagnoseTask).error =
       Option.some msg ∧ msg ≠ "") :=
  ⟨claim_C4_no_exception_escape.1 "data-analysis-001" cxBadAnalyzeTask
      PyErr.attributeError rfl,
   by decide,
   claim_C4_no_exception_escape.2.1 [] "ghost" cxDiagnoseTask (by decide)⟩

/-! ## Claim theorems: diagnosis severity -/

/-- The `health_indicators` dict that `_diagnose` reads (empty when
either `.get` target is not a dict — in that case `_diagnose` raises
and produces no severity at all). -/
def healthOf (data : Dict) : Dict :=
  match asDict (dictGetD data "analysis" (Val.dict [])) with
  | Except.ok analysis =>
      match asDict (dictGetD analysis "health_indicators" (Val.dict [])) with
      | Except.ok h => h
      | Except.error _ => []
  | Except.error _ => []

/-- Whether `_diagnose` sees a warning for indicator `k`. -/
def warnFlag (data : Dict) (k : String) : Bool :=
  valEqStr (dictGet? (healthOf data) k) "warning"

/-- C10 (confirmed): whenever `_diagnose` returns, its output's
`severity` is exactly the value of the last warning branch taken
(brakes/oil/engine ⇒ "high", battery ⇒ "medium", none ⇒ "low"), and
that value is always one of "low"/"medium"/"high" — never
"critical". -/
theorem claim_C10_diagnose_severity :
    ∀ (data out : Dict), pyDiagnose data = Except.ok out →
      dictGet? out "severity" =
        Option.some (Val.s (diagnoseSeverity (warnFlag data "engine")
          (warnFlag data "oil") (warnFlag data "battery") (warnFlag data "brakes"))) ∧
      (∀ e o ba br : Bool,
        diagnoseSeverity e o ba br ∈ (["low", "medium", "high"] : List String)) := by
  intro data out h
  refine ⟨?_, by decide⟩
  unfold pyDiagnose at h
  rcases h1 : asDict (dictGetD data "analysis" (Val.dict [])) with e1 | analysis <;>
    rw [h1] at h <;> dsimp only at h
  · exact absurd h (by simp)
  · rcases h2 : asDict (dictGetD analysis "health_indicators" (Val.dict [])) with e2 | hh <;>
      rw [h2] at h <;> dsimp only at h
    · exact absurd h (by simp)
    · simp only [Except.ok.injEq] at h
      subst h
      have hw : healthOf data = hh := by
        unfold healthOf
        rw [h1]
        dsimp only
        rw [h2]
      unfold warnFlag
      rw [hw]
      rfl

/-- Diagnosis input with engine and battery warnings: the battery
branch is evaluated after the engine branch, so severity is
"medium". -/
def cxDiagnoseData : Dict :=
  [("analysis", Val.dict
    [("health_indicators", Val.dict
      [("engine", Val.s "warning"), ("battery", Val.s "warning")])])]

/-- The diagnosis output for `cxDiagnoseData`. -/
def cxDiagnoseOut : Dict := pyDiagnoseOutput (Val.s "unknown") true false true false

theorem claim_C10_witness :
    dictGet? cxDiagnoseOut "severity" =
      Option.some (Val.s (diagnoseSeverity (warnFlag cxDiagnoseData "engine")
        (warnFlag cxDiagnoseData "oil") (warnFlag cxDiagnoseData "battery")
        (warnFlag cxDiagnoseData "brakes"))) ∧
    diagnoseSeverity true false true false = "medium" :=
  ⟨(claim_C10_diagnose_severity cxDiagnoseData cxDiagnoseOut rfl).1, rfl⟩

/-! ## Structure lemmas for the telemetry workflow -/

theorem pyAnalyze_ok_shape (d out : Dict) (h : pyAnalyze d = Except.ok out) :
    ∃ (vid : Val) (e o ba br : Bool), out = pyAnalyzeOutput vid e o ba br := by
  unfold pyAnalyze at h
  rcases h1 : asDict (dictGetD d "telemetry" (Val.dict [])) with e1 | telemetry <;>
    rw [h1] at h <;> dsimp only at h
  · exact absurd h (by simp)
  rcases h2 : valLt (dictGetD telemetry "engine_temp" (vInt 90)) ⟨100, 1⟩ with e2 | eg <;>
    rw [h2] at h <;> dsimp only at h
  · exact absurd h (by simp)
  rcases h3 : valGt (dictGetD telemetry "oil_pressure" (vInt 40)) ⟨30, 1⟩ with e3 | og <;>
    rw [h3] at h <;> dsimp only at h
  · exact absurd h (by simp)
  rcases h4 : valGt (dictGetD telemetry "battery_voltage" (vInt 12)) ⟨115, 10⟩ with e4 | bg <;>
    rw [h4] at h <;> dsimp only at h
  · exact absurd h (by simp)
  rcases h5 : valGt (dictGetD telemetry "brake_pad_wear_avg" (Val.n ⟨5, 10⟩)) ⟨2, 10⟩ with e5 | brg <;>
    rw [h5] at h <;> dsimp only at h
  · exact absurd h (by simp)
  simp only [Except.ok.injEq] at h
  exact ⟨_, eg, og, bg, brg, h.symm⟩

theorem masterAnalysisResult_health (t : Dict) :
    ∃ hh : Dict,
      asDict (dictGetD (masterAnalysisResult t).output "health_indicators"
        (Val.dict [])) = Except.ok hh := by
  unfold masterAnalysisResult builtin_execute_task
  have hf : masterRegistry.find? (fun q => q.1 == workerId "data_analysis") =
      Option.some ("data-analysis-001", AgentType.data_analysis) := by decide
  rw [hf]
  dsimp only
  unfold builtinExecute
  have heq : builtinHandler (masterAnalysisTask t).task_type
      (masterAnalysisTask t).input_data = pyAnalyze (masterAnalysisTask t).input_data := rfl
  rw [heq]
  rcases hres : pyAnalyze (masterAnalysisTask t).input_data with e | out <;>
    dsimp only
  · exact ⟨[], rfl⟩
  · obtain ⟨vid, a, b, c, dd, hout⟩ := pyAnalyze_ok_shape _ _ hres
    subst hout
    exact ⟨analyzeHealth a b c dd, rfl⟩

theorem masterDiagnosisResult_output (t p : Dict) :
    ∃ (vid : Val) (e o ba br : Bool),
      (masterDiagnosisResult t p).output = pyDiagnoseOutput vid e o ba br := by
  obtain ⟨hh, hhh⟩ := masterAnalysisResult_health t
  unfold masterDiagnosisResult builtin_execute_task
  have hf : masterRegistry.find? (fun q => q.1 == workerId "diagnosis") =
      Option.some ("diagnosis-001", AgentType.diagnosis) := by decide
  rw [hf]
  dsimp only
  unfold builtinExecute
  have heq : builtinHandler (masterDiagnosisTask t p).task_type
      (masterDiagnosisTask t p).input_data =
      pyDiagnose (masterDiagnosisTask t p).input_data := rfl
  rw [heq]
  unfold pyDiagnose
  have h1 : asDict (dictGetD (masterDiagnosisTask t p).input_data "analysis"
      (Val.dict [])) = Except.ok (masterAnalysisResult t).output := rfl
  rw [h1]
  dsimp only
  rw [hhh]
  dsimp only
  exact ⟨_, _, _, _, _, rfl⟩

theorem diagnoseFindingsFinal_cons (e o ba br : Bool) :
    ∃ (v : Val) (rest : List Val), diagnoseFindingsFinal e o ba br = v :: rest := by
  cases e <;> cases o <;> cases ba <;> cases br <;> exact ⟨_, _, rfl⟩

theorem initiate_service_ok (vid : Val) (t p : Dict) :
    ∃ eR sR : AgentResult,
      initiate_service_workflow vid (masterDiagnosisResult t p).output =
        Except.ok ([("engagement", stageVal eR), ("scheduling", stageVal sR)],
          ["schedule"]) := by
  obtain ⟨vid', e, o, ba, br, hout⟩ := masterDiagnosisResult_output t p
  rw [hout]
  unfold initiate_service_workflow
  have hfind : dictGetD (pyDiagnoseOutput vid' e o ba br) "findings"
      (Val.list [Val.s "Service"]) =
      Val.list (diagnoseFindingsFinal e o ba br) := rfl
  rw [hfind]
  obtain ⟨v, rest, hv⟩ := diagnoseFindingsFinal_cons e o ba br
  rw [hv]
  dsimp only [pyIndex0]
  exact ⟨_, _, rfl⟩

/-! ## Claim theorems: telemetry workflow staging -/

/-- C7 (confirmed): whenever the `needs_diagnosis` gate evaluates
(i.e. the `failure_probability` comparison does not raise), the
diagnosis stage is present in the run's stage results exactly when
`failure_probability > 0.3` or the analysis `overall_status` is
`"needs_attention"`, and `requires_action` equals that same gate
value — `false` (with the stage absent) when neither condition holds,
`true` when the stage ran. -/
theorem claim_C7_diagnosis_gate :
    ∀ (telemetry uebaResult prediction : Dict) (g : Bool),
      masterNeedsDiagnosis telemetry prediction = Except.ok g →
      ((process_telemetry telemetry uebaResult prediction).stages.find?
        (fun q => q.1 == "diagnosis")).isSome = g ∧
      (process_telemetry telemetry uebaResult prediction).requires_action =
        Option.some g := by
  intro t u p g h
  simp only [process_telemetry]
  rw [h]
  cases g with
  | false =>
      dsimp only
      exact ⟨rfl, rfl⟩
  | true =>
      dsimp only
      by_cases hsev : sevTriggers (dictGetD (masterDiagnosisResult t p).output
          "severity" (Val.s "low")) = true
      · rw [if_pos hsev]
        obtain ⟨eR, sR, hok⟩ :=
          initiate_service_ok (dictGetD t "vehicle_id" (Val.s "unknown")) t p
        rw [hok]
        exact ⟨rfl, rfl⟩
      · rw [if_neg hsev]
        exact ⟨rfl, rfl⟩

/-- A telemetry bundle within all health thresholds. -/
def cxHealthyTelemetry : Dict := [("vehicle_id", Val.s "VH001")]

theorem claim_C7_witness :
    ((process_telemetry cxHealthyTelemetry [] []).stages.find?
      (fun q => q.1 == "diagnosis")).isSome = false ∧
    (process_telemetry cxHealthyTelemetry [] []).requires_action =
      Option.some false :=
  ⟨(claim_C7_diagnosis_gate cxHealthyTelemetry [] [] false rfl).1,
   (claim_C7_diagnosis_gate cxHealthyTelemetry [] [] false rfl).2⟩

/-- C8 (confirmed): in any run whose stage results contain a
Diagnosis entry, the Engagement and Scheduling stages are present —
in that order, followed by a second UEBA behavior check reporting the
"schedule" action — exactly when the diagnosis output's severity is
in {high, critical, medium}; otherwise the run's stages stop at
Diagnosis and only the initial "query" behavior check was made.  (The
builtin diagnosis worker only ever produces severities in
{low, medium, high}, so "low" is exactly the non-triggering case.) -/
theorem claim_C8_service_gating :
    ∀ (telemetry uebaResult prediction : Dict),
      ((process_telemetry telemetry uebaResult prediction).stages.find?
        (fun q => q.1 == "diagnosis")).isSome = true →
      ((sevTriggers (dictGetD (masterDiagnosisResult telemetry prediction).output
          "severity" (Val.s "low")) = true →
        (process_telemetry telemetry uebaResult prediction).stages.map Prod.fst =
          ["ueba_check", "analysis", "prediction", "diagnosis", "engagement",
           "scheduling"] ∧
        (process_telemetry telemetry uebaResult prediction).uebaCalls =
          ["query", "schedule"]) ∧
       (sevTriggers (dictGetD (masterDiagnosisResult telemetry prediction).output
          "severity" (Val.s "low")) = false →
        (process_telemetry telemetry uebaResult prediction).stages.map Prod.fst =
          ["ueba_check", "analysis", "prediction", "diagnosis"] ∧
        (process_telemetry telemetry uebaResult prediction).uebaCalls =
          ["query"])) := by
  intro t u p hdiag
  rcases hg : masterNeedsDiagnosis t p with e | g
  · simp only [process_telemetry, hg] at hdiag
    exact absurd hdiag (by simp [failedSummary])
  · cases g with
    | false =>
        simp only [process_telemetry, hg] at hdiag
        exact absurd hdiag (by simp [completedSummary])
    | true =>
        by_cases hsev : sevTriggers (dictGetD (masterDiagnosisResult t p).output
            "severity" (Val.s "low")) = true
        · obtain ⟨eR, sR, hok⟩ :=
            initiate_service_ok (dictGetD t "vehicle_id" (Val.s "unknown")) t p
          constructor
          · intro _
            simp only [process_telemetry, hg]
            rw [if_pos hsev, hok]
            exact ⟨rfl, rfl⟩
          · intro hfalse
            rw [hsev] at hfalse
            simp at hfalse
        · constructor
          · intro htrue
            exact absurd htrue hsev
          · intro _
            simp only [process_telemetry, hg]
            rw [if_neg hsev]
            exact ⟨rfl, rfl⟩

/-- A telemetry bundle with engine, oil and battery readings past
their thresholds (severity "high" / "medium" branches taken). -/
def cxWarningTelemetry : Dict :=
  [("vehicle_id", Val.s "VH007"), ("engine_temp", Val.n ⟨1185, 10⟩),
   ("oil_pressure", Val.n ⟨262, 10⟩), ("battery_voltage", Val.n ⟨105, 10⟩)]

theorem claim_C8_witness :
    (process_telemetry cxWarningTelemetry [] []).stages.map Prod.fst =
      ["ueba_check", "analysis", "prediction", "diagnosis", "engagement",
       "scheduling"] ∧
    (process_telemetry cxWarningTelemetry [] []).uebaCalls =
      ["query", "schedule"] :=
  (claim_C8_service_gating cxWarningTelemetry [] [] (by decide)).1 (by decide)

/-- C9 (counterexample): when a stage raises (here: the gate
comparison `failure_probability > 0.3` on a string value), the run
summary has `status = "failed"` but **no** `requires_action` field at
all — the claim that every summary contains `requires_action` is
false on the failure path. -/
theorem claim_C9_counterexample :
    (process_telemetry cxHealthyTelemetry []
      [("failure_probability", Val.s "unknown")]).requires_action =
        Option.none ∧
    (process_telemetry cxHealthyTelemetry []
      [("failure_probability", Val.s "unknown")]).status =
        Option.some "failed" := by
  decide

/-- C9 (amended): every run summary carries per-stage outcomes and a
`status` (`"completed"` or `"failed"`); `requires_action` is present
exactly on completed runs; and a failed run records a non-empty
triggering error alongside the partial stage results. -/
theorem claim_C9_summary_shape :
    ∀ (telemetry uebaResult prediction : Dict),
      (process_telemetry telemetry uebaResult prediction).status.isSome = true ∧
      ((process_telemetry telemetry uebaResult prediction).requires_action.isSome
          = true ↔
        (process_telemetry telemetry uebaResult prediction).status =
          Option.some "completed") ∧
      ((process_telemetry telemetry uebaResult prediction).status =
          Option.some "failed" →
        ∃ m, (process_telemetry telemetry uebaResult prediction).error =
          Option.some m ∧ m ≠ "") := by
  intro t u p
  rcases hg : masterNeedsDiagnosis t p with e | g
  · simp only [process_telemetry, hg]
    refine ⟨rfl, by simp [failedSummary], ?_⟩
    intro _
    exact ⟨e.msg, rfl, PyErr.msg_ne_empty e⟩
  · cases g with
    | false =>
        simp only [process_telemetry, hg]
        refine ⟨rfl, by simp [completedSummary], ?_⟩
        intro hc
        simp [completedSummary] at hc
    | true =>
        by_cases hsev : sevTriggers (dictGetD (masterDiagnosisResult t p).output
            "severity" (Val.s "low")) = true
        · obtain ⟨eR, sR, hok⟩ :=
            initiate_service_ok (dictGetD t "vehicle_id" (Val.s "unknown")) t p
          simp only [process_telemetry, hg]
          rw [if_pos hsev, hok]
          refine ⟨rfl, by simp [completedSummary], ?_⟩
          intro hc
          simp [completedSummary] at hc
        · simp only [process_telemetry, hg]
          rw [if_neg hsev]
          refine ⟨rfl, by simp [completedSummary], ?_⟩
          intro hc
          simp [completedSummary] at hc

theorem claim_C9_witness :
    (process_telemetry cxHealthyTelemetry []
      [("failure_probability", Val.s "unknown")]).status.isSome = true ∧
    (∃ m, (process_telemetry cxHealthyTelemetry []
      [("failure_probability", Val.s "unknown")]).error =
        Option.some m ∧ m ≠ "") :=
  ⟨(claim_C9_summary_shape cxHealthyTelemetry []
      [("failure_probability", Val.s "unknown")]).1,
   (claim_C9_summary_shape cxHealthyTelemetry []
      [("failure_probability", Val.s "unknown")]).2.2 (by decide)⟩

end AutoSentry
